import Mathlib

/-!
Shallow embedding of the typed value-extraction layer
(`src/types/from_sql.rs`) and the composite tuple column
(`src/types/column/tuple.rs`) of the clickhouse-rs client library,
together with theorems settling the specification claims.

Conventions of the embedding:
* Machine integers are modelled as `Nat` (unsigned) and `Int` (signed).
  No conversion in this layer performs arithmetic on them — values are
  passed through verbatim — so no modular reduction is needed.
* `f32`/`f64` payloads are carried verbatim as well; we model them by
  their raw bit pattern (a `Nat`), which the conversions never inspect.
* Borrowed text and byte views are modelled as the byte sequence
  (`List Nat`) they view.
* Fallible Rust code returning `Result<T, Error>` is modelled as
  `Except Error T`.
* The `unimplemented!()` panics in the tuple column are modelled as a
  distinguished `Error.unsupportedOperation` outcome (the spec names
  this outcome "UnsupportedOperation").
-/

namespace ClickhouseRs

/-- Alias for the Lean string type, needed because `String` is also the
name of a `SqlType` / `ValueRef` constructor below. -/
abbrev Str := String

/-- Modelled from the spec: the runtime SQL type descriptor (`SqlType`
in `src/types.rs`, which is not under `src/`); §3 of the spec lists the
corresponding value variants. Payloads irrelevant to the claims are
kept minimal; timezones are modelled by their name. -/
inductive SqlType where
  | UInt8 | UInt16 | UInt32 | UInt64
  | Int8 | Int16 | Int32 | Int64
  | Float32 | Float64
  | String
  | Decimal (precision scale : Nat)
  | Enum8 (tbl : List (Str × Int))
  | Enum16 (tbl : List (Str × Int))
  | Ipv4 | Ipv6 | Uuid
  | Date
  | DateTime
  | DateTime64 (precision : Nat) (tz : Str)
  | Nullable (inner : SqlType)
  | Array (elem : SqlType)
  | Tuple (elems : List SqlType)

mutual

/-- Modelled from the spec: `SqlType::to_string` (`src/types.rs`, not
under `src/`), the human-readable source-tag description used in
type-mismatch errors. The repository's own unit test fixes the shape
for primitives (for example the 16-bit unsigned tag prints `UInt16`);
composite tags print recursively. -/
def SqlType.toStr : SqlType → Str
  | .UInt8 => "UInt8"
  | .UInt16 => "UInt16"
  | .UInt32 => "UInt32"
  | .UInt64 => "UInt64"
  | .Int8 => "Int8"
  | .Int16 => "Int16"
  | .Int32 => "Int32"
  | .Int64 => "Int64"
  | .Float32 => "Float32"
  | .Float64 => "Float64"
  | .String => "String"
  | .Decimal p s => "Decimal(" ++ toString p ++ ", " ++ toString s ++ ")"
  | .Enum8 _ => "Enum8"
  | .Enum16 _ => "Enum16"
  | .Ipv4 => "IPv4"
  | .Ipv6 => "IPv6"
  | .Uuid => "UUID"
  | .Date => "Date"
  | .DateTime => "DateTime"
  | .DateTime64 p tz => "DateTime64(" ++ toString p ++ ", " ++ tz ++ ")"
  | .Nullable t => "Nullable(" ++ t.toStr ++ ")"
  | .Array t => "Array(" ++ t.toStr ++ ")"
  | .Tuple ts => "Tuple(" ++ SqlType.listToStr ts ++ ")"

/-- Comma-separated rendering of a list of type descriptors (used by
the tuple case of `SqlType.toStr`). -/
def SqlType.listToStr : List SqlType → Str
  | [] => ""
  | [t] => t.toStr
  | t :: ts => t.toStr ++ ", " ++ SqlType.listToStr ts

end

/-- The runtime-tagged value (`ValueRef` in `src/types/value_ref.rs`,
not under `src/`; §3 of the spec enumerates the variants).
The `Nullable` variant of the source carries an
`Either(inner type, boxed inner value)`; we split its two sides into
the constructors `NullableNone` (the `Left` / absent side, carrying the
inner type descriptor) and `NullableSome` (the `Right` / present side,
carrying the boxed inner value). -/
inductive ValueRef where
  | UInt8 (v : Nat)
  | UInt16 (v : Nat)
  | UInt32 (v : Nat)
  | UInt64 (v : Nat)
  | Int8 (v : Int)
  | Int16 (v : Int)
  | Int32 (v : Int)
  | Int64 (v : Int)
  | Float32 (bits : Nat)
  | Float64 (bits : Nat)
  | String (bytes : List Nat)
  | Decimal (underlying : Int) (precision scale : Nat)
  | Enum8 (tbl : List (Str × Int)) (v : Int)
  | Enum16 (tbl : List (Str × Int)) (v : Int)
  | Ipv4 (octets : List Nat)
  | Ipv6 (octets : List Nat)
  | Uuid (bytes : List Nat)
  | Date (days : Nat) (tz : Str)
  | DateTime (secs : Nat) (tz : Str)
  | DateTime64 (ticks : Int) (precision : Nat) (tz : Str)
  | NullableNone (inner : SqlType)
  | NullableSome (inner : ValueRef)
  | Array (elem : SqlType) (vs : List ValueRef)
  | Tuple (vs : List ValueRef)

mutual

/-- Modelled from the spec: `SqlType::from(ValueRef)` (`src/types/value_ref.rs`,
not under `src/`): the declared type of a tagged value, used to build
the `src` field of type-mismatch errors. -/
def SqlType.ofValue : ValueRef → SqlType
  | .UInt8 _ => .UInt8
  | .UInt16 _ => .UInt16
  | .UInt32 _ => .UInt32
  | .UInt64 _ => .UInt64
  | .Int8 _ => .Int8
  | .Int16 _ => .Int16
  | .Int32 _ => .Int32
  | .Int64 _ => .Int64
  | .Float32 _ => .Float32
  | .Float64 _ => .Float64
  | .String _ => .String
  | .Decimal _ p s => .Decimal p s
  | .Enum8 tbl _ => .Enum8 tbl
  | .Enum16 tbl _ => .Enum16 tbl
  | .Ipv4 _ => .Ipv4
  | .Ipv6 _ => .Ipv6
  | .Uuid _ => .Uuid
  | .Date _ _ => .Date
  | .DateTime _ _ => .DateTime
  | .DateTime64 _ p tz => .DateTime64 p tz
  | .NullableNone t => .Nullable t
  | .NullableSome v => .Nullable (SqlType.ofValue v)
  | .Array t _ => .Array t
  | .Tuple vs => .Tuple (SqlType.listOfValues vs)

/-- Declared types of a list of tagged values (used by the tuple case
of `SqlType.ofValue`). -/
def SqlType.listOfValues : List ValueRef → List SqlType
  | [] => []
  | v :: vs => SqlType.ofValue v :: SqlType.listOfValues vs

end

/-- The conversion-layer error payload
(`FromSqlError::InvalidType { src, dst }` in `src/errors.rs`, not under
`src/`; the spec calls this error kind `TypeMismatch`). It carries the
human-readable source tag description and destination type name. -/
inductive FromSqlError where
  | invalidType (src : Str) (dst : Str)
  deriving DecidableEq

/-- The library error type (`Error` in `src/errors.rs`, not under
`src/`), restricted to the outcomes observable from this layer.
`fromSql` wraps a conversion error (`Error::FromSql(..)` in the
source); `unsupportedOperation` is the embedding of the
`unimplemented!()` panics of the tuple column (§7 of the spec names
this outcome `UnsupportedOperation`). -/
inductive Error where
  | fromSql (e : FromSqlError)
  | unsupportedOperation
  deriving DecidableEq

/-- `FromSqlResult<T>` from `src/types/from_sql.rs`. -/
abbrev FromSqlResult (α : Type) := Except Error α

/-- The error value built by every mismatch arm of
`src/types/from_sql.rs`:
`SqlType::from(value.clone()).to_string()` as `src`, the destination
type name as `dst`. -/
def invalid_type (value : ValueRef) (dst : Str) : Error :=
  Error.fromSql (FromSqlError.invalidType (SqlType.ofValue value).toStr dst)

/-! ### Primitive conversions

`from_sql_impl!` (src/types/from_sql.rs lines 17–33) instantiated at
lines 299–312 for the ten primitive destination types: match the one
variant named by the macro, return its payload; any other value is a
mismatch. -/

/-- `impl FromSql for u8` (macro `from_sql_impl! { u8: UInt8 }`). -/
def from_sql_u8 : ValueRef → FromSqlResult Nat
  | .UInt8 v => .ok v
  | value => .error (invalid_type value "u8")

/-- `impl FromSql for u16` (macro `from_sql_impl! { u16: UInt16 }`). -/
def from_sql_u16 : ValueRef → FromSqlResult Nat
  | .UInt16 v => .ok v
  | value => .error (invalid_type value "u16")

/-- `impl FromSql for u32` (macro `from_sql_impl! { u32: UInt32 }`). -/
def from_sql_u32 : ValueRef → FromSqlResult Nat
  | .UInt32 v => .ok v
  | value => .error (invalid_type value "u32")

/-- `impl FromSql for u64` (macro `from_sql_impl! { u64: UInt64 }`). -/
def from_sql_u64 : ValueRef → FromSqlResult Nat
  | .UInt64 v => .ok v
  | value => .error (invalid_type value "u64")

/-- `impl FromSql for i8` (macro `from_sql_impl! { i8: Int8 }`). -/
def from_sql_i8 : ValueRef → FromSqlResult Int
  | .Int8 v => .ok v
  | value => .error (invalid_type value "i8")

/-- `impl FromSql for i16` (macro `from_sql_impl! { i16: Int16 }`). -/
def from_sql_i16 : ValueRef → FromSqlResult Int
  | .Int16 v => .ok v
  | value => .error (invalid_type value "i16")

/-- `impl FromSql for i32` (macro `from_sql_impl! { i32: Int32 }`). -/
def from_sql_i32 : ValueRef → FromSqlResult Int
  | .Int32 v => .ok v
  | value => .error (invalid_type value "i32")

/-- `impl FromSql for i64` (macro `from_sql_impl! { i64: Int64 }`). -/
def from_sql_i64 : ValueRef → FromSqlResult Int
  | .Int64 v => .ok v
  | value => .error (invalid_type value "i64")

/-- `impl FromSql for f32` (macro `from_sql_impl! { f32: Float32 }`);
the payload is the carried bit pattern. -/
def from_sql_f32 : ValueRef → FromSqlResult Nat
  | .Float32 v => .ok v
  | value => .error (invalid_type value "f32")

/-- `impl FromSql for f64` (macro `from_sql_impl! { f64: Float64 }`);
the payload is the carried bit pattern. -/
def from_sql_f64 : ValueRef → FromSqlResult Nat
  | .Float64 v => .ok v
  | value => .error (invalid_type value "f64")

/-! Characterisation lemmas for the ten primitive conversions. -/

theorem from_sql_u8_ok_iff (value : ValueRef) (n : Nat) :
    from_sql_u8 value = .ok n ↔ value = .UInt8 n := by
  cases value <;> simp [from_sql_u8]

theorem from_sql_u8_mismatch (value : ValueRef) (h : ∀ n, value ≠ .UInt8 n) :
    from_sql_u8 value = .error (invalid_type value "u8") := by
  cases value <;> simp [from_sql_u8]
  exact absurd rfl (h _)

theorem from_sql_u16_ok_iff (value : ValueRef) (n : Nat) :
    from_sql_u16 value = .ok n ↔ value = .UInt16 n := by
  cases value <;> simp [from_sql_u16]

theorem from_sql_u16_mismatch (value : ValueRef) (h : ∀ n, value ≠ .UInt16 n) :
    from_sql_u16 value = .error (invalid_type value "u16") := by
  cases value <;> simp [from_sql_u16]
  exact absurd rfl (h _)

theorem from_sql_u32_ok_iff (value : ValueRef) (n : Nat) :
    from_sql_u32 value = .ok n ↔ value = .UInt32 n := by
  cases value <;> simp [from_sql_u32]

theorem from_sql_u32_mismatch (value : ValueRef) (h : ∀ n, value ≠ .UInt32 n) :
    from_sql_u32 value = .error (invalid_type value "u32") := by
  cases value <;> simp [from_sql_u32]
  exact absurd rfl (h _)

theorem from_sql_u64_ok_iff (value : ValueRef) (n : Nat) :
    from_sql_u64 value = .ok n ↔ value = .UInt64 n := by
  cases value <;> simp [from_sql_u64]

theorem from_sql_u64_mismatch (value : ValueRef) (h : ∀ n, value ≠ .UInt64 n) :
    from_sql_u64 value = .error (invalid_type value "u64") := by
  cases value <;> simp [from_sql_u64]
  exact absurd rfl (h _)

theorem from_sql_i8_ok_iff (value : ValueRef) (n : Int) :
    from_sql_i8 value = .ok n ↔ value = .Int8 n := by
  cases value <;> simp [from_sql_i8]

theorem from_sql_i8_mismatch (value : ValueRef) (h : ∀ n, value ≠ .Int8 n) :
    from_sql_i8 value = .error (invalid_type value "i8") := by
  cases value <;> simp [from_sql_i8]
  exact absurd rfl (h _)

theorem from_sql_i16_ok_iff (value : ValueRef) (n : Int) :
    from_sql_i16 value = .ok n ↔ value = .Int16 n := by
  cases value <;> simp [from_sql_i16]

theorem from_sql_i16_mismatch (value : ValueRef) (h : ∀ n, value ≠ .Int16 n) :
    from_sql_i16 value = .error (invalid_type value "i16") := by
  cases value <;> simp [from_sql_i16]
  exact absurd rfl (h _)

theorem from_sql_i32_ok_iff (value : ValueRef) (n : Int) :
    from_sql_i32 value = .ok n ↔ value = .Int32 n := by
  cases value <;> simp [from_sql_i32]

theorem from_sql_i32_mismatch (value : ValueRef) (h : ∀ n, value ≠ .Int32 n) :
    from_sql_i32 value = .error (invalid_type value "i32") := by
  cases value <;> simp [from_sql_i32]
  exact absurd rfl (h _)

theorem from_sql_i64_ok_iff (value : ValueRef) (n : Int) :
    from_sql_i64 value = .ok n ↔ value = .Int64 n := by
  cases value <;> simp [from_sql_i64]

theorem from_sql_i64_mismatch (value : ValueRef) (h : ∀ n, value ≠ .Int64 n) :
    from_sql_i64 value = .error (invalid_type value "i64") := by
  cases value <;> simp [from_sql_i64]
  exact absurd rfl (h _)

theorem from_sql_f32_ok_iff (value : ValueRef) (n : Nat) :
    from_sql_f32 value = .ok n ↔ value = .Float32 n := by
  cases value <;> simp [from_sql_f32]

theorem from_sql_f32_mismatch (value : ValueRef) (h : ∀ n, value ≠ .Float32 n) :
    from_sql_f32 value = .error (invalid_type value "f32") := by
  cases value <;> simp [from_sql_f32]
  exact absurd rfl (h _)

theorem from_sql_f64_ok_iff (value : ValueRef) (n : Nat) :
    from_sql_f64 value = .ok n ↔ value = .Float64 n := by
  cases value <;> simp [from_sql_f64]

theorem from_sql_f64_mismatch (value : ValueRef) (h : ∀ n, value ≠ .Float64 n) :
    from_sql_f64 value = .error (invalid_type value "f64") := by
  cases value <;> simp [from_sql_f64]
  exact absurd rfl (h _)

/-- C1: for every primitive tagged value and every primitive
destination type (u8, u16, u32, u64, i8, i16, i32, i64, f32, f64),
`from_sql` succeeds and returns the carried value iff the value's tag
is exactly the tag associated with the destination type; on any
mismatch it fails with a type-mismatch error naming the source tag
(`(SqlType.ofValue value).toStr`) and the destination type. -/
theorem C1_primitive_exact_tag (value : ValueRef) :
    ((∀ n, from_sql_u8 value = .ok n ↔ value = .UInt8 n) ∧
      ((∀ n, value ≠ .UInt8 n) →
        from_sql_u8 value = .error (invalid_type value "u8"))) ∧
    ((∀ n, from_sql_u16 value = .ok n ↔ value = .UInt16 n) ∧
      ((∀ n, value ≠ .UInt16 n) →
        from_sql_u16 value = .error (invalid_type value "u16"))) ∧
    ((∀ n, from_sql_u32 value = .ok n ↔ value = .UInt32 n) ∧
      ((∀ n, value ≠ .UInt32 n) →
        from_sql_u32 value = .error (invalid_type value "u32"))) ∧
    ((∀ n, from_sql_u64 value = .ok n ↔ value = .UInt64 n) ∧
      ((∀ n, value ≠ .UInt64 n) →
        from_sql_u64 value = .error (invalid_type value "u64"))) ∧
    ((∀ n, from_sql_i8 value = .ok n ↔ value = .Int8 n) ∧
      ((∀ n, value ≠ .Int8 n) →
        from_sql_i8 value = .error (invalid_type value "i8"))) ∧
    ((∀ n, from_sql_i16 value = .ok n ↔ value = .Int16 n) ∧
      ((∀ n, value ≠ .Int16 n) →
        from_sql_i16 value = .error (invalid_type value "i16"))) ∧
    ((∀ n, from_sql_i32 value = .ok n ↔ value = .Int32 n) ∧
      ((∀ n, value ≠ .Int32 n) →
        from_sql_i32 value = .error (invalid_type value "i32"))) ∧
    ((∀ n, from_sql_i64 value = .ok n ↔ value = .Int64 n) ∧
      ((∀ n, value ≠ .Int64 n) →
        from_sql_i64 value = .error (invalid_type value "i64"))) ∧
    ((∀ n, from_sql_f32 value = .ok n ↔ value = .Float32 n) ∧
      ((∀ n, value ≠ .Float32 n) →
        from_sql_f32 value = .error (invalid_type value "f32"))) ∧
    ((∀ n, from_sql_f64 value = .ok n ↔ value = .Float64 n) ∧
      ((∀ n, value ≠ .Float64 n) →
        from_sql_f64 value = .error (invalid_type value "f64"))) :=
  ⟨⟨from_sql_u8_ok_iff value, from_sql_u8_mismatch value⟩,
    ⟨from_sql_u16_ok_iff value, from_sql_u16_mismatch value⟩,
    ⟨from_sql_u32_ok_iff value, from_sql_u32_mismatch value⟩,
    ⟨from_sql_u64_ok_iff value, from_sql_u64_mismatch value⟩,
    ⟨from_sql_i8_ok_iff value, from_sql_i8_mismatch value⟩,
    ⟨from_sql_i16_ok_iff value, from_sql_i16_mismatch value⟩,
    ⟨from_sql_i32_ok_iff value, from_sql_i32_mismatch value⟩,
    ⟨from_sql_i64_ok_iff value, from_sql_i64_mismatch value⟩,
    ⟨from_sql_f32_ok_iff value, from_sql_f32_mismatch value⟩,
    ⟨from_sql_f64_ok_iff value, from_sql_f64_mismatch value⟩⟩

/-- Witness for C1 at the spec's concrete scenarios 1 and 2: an 8-bit
unsigned tagged 42 converts to `u8` as 42, and a 16-bit unsigned
tagged 42 against destination `u32` fails with
`TypeMismatch(src = UInt16, dst = u32)`. -/
theorem C1_primitive_exact_tag_witness :
    from_sql_u8 (ValueRef.UInt8 42) = .ok 42 ∧
    from_sql_u32 (ValueRef.UInt16 42) =
      .error (.fromSql (.invalidType "UInt16" "u32")) := by
  constructor
  · exact ((C1_primitive_exact_tag (ValueRef.UInt8 42)).1.1 42).mpr rfl
  · exact (C1_primitive_exact_tag (ValueRef.UInt16 42)).2.2.1.2
      (fun n h => nomatch h)

/-! ### Nullable conversion -/

/-- `impl FromSql for Option<T>` (src/types/from_sql.rs lines
235–257), parameterised by the inner conversion `f` (the source's
`T::from_sql`). An absent `Nullable` (the `Left` side) yields `none`;
a present one (the `Right` side) converts the boxed inner value and
propagates its error unchanged. The mismatch arm of the source reads
`dst: stringify!($t).into()` even though it is not inside any macro,
so the destination string is the literal `$t`, not a rendering of the
destination type. -/
def from_sql_option {α : Type} (f : ValueRef → FromSqlResult α) :
    ValueRef → FromSqlResult (Option α)
  | .NullableNone _ => .ok none
  | .NullableSome u =>
    match f u with
    | .ok x => .ok (some x)
    | .error e => .error e
  | value => .error (invalid_type value "$t")

/-- True exactly when the value's tag is `Nullable` (either side of
the `Either`). -/
def ValueRef.isNullableTag : ValueRef → Bool
  | .NullableNone _ => true
  | .NullableSome _ => true
  | _ => false

/-- C4: for every destination conversion `f`: converting an absent
Nullable yields `none` whatever `f` is (so the inner conversion is
never invoked); converting a present inner value yields `some` of
`f`'s result, and fails exactly when `f` fails, with the identical
error propagated unchanged. -/
theorem C4_option_nullable {α : Type} (f : ValueRef → FromSqlResult α)
    (t : SqlType) (u : ValueRef) :
    from_sql_option f (ValueRef.NullableNone t) = .ok none ∧
    (∀ x, f u = .ok x →
      from_sql_option f (ValueRef.NullableSome u) = .ok (some x)) ∧
    (∀ e, f u = .error e →
      from_sql_option f (ValueRef.NullableSome u) = .error e) := by
  refine ⟨rfl, ?_, ?_⟩
  · intro x hx
    simp [from_sql_option, hx]
  · intro e he
    simp [from_sql_option, he]

/-- Witness for C4 at the spec's concrete scenario 3 plus an inner
failure: absent to Option of u8 is none; present(8-bit unsigned 7) is
some 7; present(8-bit signed 3) propagates the inner u8 mismatch
error unchanged. -/
theorem C4_option_nullable_witness :
    from_sql_option from_sql_u8 (ValueRef.NullableNone SqlType.UInt8) = .ok none ∧
    from_sql_option from_sql_u8 (ValueRef.NullableSome (ValueRef.UInt8 7)) =
      .ok (some 7) ∧
    from_sql_option from_sql_u8 (ValueRef.NullableSome (ValueRef.Int8 3)) =
      .error (invalid_type (ValueRef.Int8 3) "u8") :=
  ⟨(C4_option_nullable from_sql_u8 SqlType.UInt8 (ValueRef.UInt8 7)).1,
    (C4_option_nullable from_sql_u8 SqlType.UInt8 (ValueRef.UInt8 7)).2.1 7 rfl,
    (C4_option_nullable from_sql_u8 SqlType.UInt8 (ValueRef.Int8 3)).2.2
      (invalid_type (ValueRef.Int8 3) "u8") rfl⟩

/-- C10: for every inner conversion and every value whose tag is not
Nullable, converting to Option returns the type-mismatch error built
from the value's declared type — it never wraps the value in `some`,
even when the inner conversion would accept it directly (the witness
exercises exactly that input). -/
theorem C10_option_non_nullable {α : Type} (f : ValueRef → FromSqlResult α)
    (value : ValueRef) (h : value.isNullableTag = false) :
    from_sql_option f value = .error (invalid_type value "$t") := by
  cases value <;> simp_all [ValueRef.isNullableTag, from_sql_option]

/-- Witness for C10: the 8-bit unsigned value 7 converts to `u8`
directly, yet converting it to Option of u8 is a type-mismatch
error. -/
theorem C10_option_non_nullable_witness :
    from_sql_u8 (ValueRef.UInt8 7) = .ok 7 ∧
    from_sql_option from_sql_u8 (ValueRef.UInt8 7) =
      .error (invalid_type (ValueRef.UInt8 7) "$t") :=
  ⟨rfl, C10_option_non_nullable from_sql_u8 (ValueRef.UInt8 7) rfl⟩

/-- C6 (evaluation at the failing input): converting the non-Nullable
8-bit unsigned value 1 to Option of u8 yields a type-mismatch error
whose `dst` field is the literal string dollar-t — because line 252 of
`src/types/from_sql.rs` reads `stringify!($t)` outside of any macro —
and that string is not a rendering of the destination type `Option<u8>`. -/
theorem C6_option_dst_is_dollar_t :
    from_sql_option from_sql_u8 (ValueRef.UInt8 1) =
      .error (.fromSql (.invalidType "UInt8" "$t")) ∧
    "$t" ≠ "Option<u8>" := by
  exact ⟨rfl, by decide⟩

/-! ### Enum conversions -/

/-- `impl FromSql for Enum8` (src/types/from_sql.rs lines 50–64). The
destination type `Enum8` is a plain wrapper around the raw `i8` member
(`src/types/enums.rs`, not under `src/`), modelled as the raw integer.
The source arm is `ValueRef::Enum8(_enum_values, v) => Ok(v)`: the
`_enum_values` symbol table is ignored. -/
def from_sql_enum8 : ValueRef → FromSqlResult Int
  | .Enum8 _tbl v => .ok v
  | value => .error (invalid_type value "Enum8")

/-- `impl FromSql for Enum16` (src/types/from_sql.rs lines 66–80),
analogous to `from_sql_enum8`. -/
def from_sql_enum16 : ValueRef → FromSqlResult Int
  | .Enum16 _tbl v => .ok v
  | value => .error (invalid_type value "Enum16")

/-- Counterexample to C7 as stated: two Enum8 tagged values carrying
the same raw member 1 but different symbol tables convert to literally
identical results, so the conversion result retains no information
about the symbol table — the table is discarded, contradicting "the
symbol table carried by the tagged value is not discarded by the
conversion". -/
theorem C7_enum_counterexample :
    from_sql_enum8 (ValueRef.Enum8 [("ok", 1)] 1) =
      from_sql_enum8 (ValueRef.Enum8 [] 1) ∧
    from_sql_enum8 (ValueRef.Enum8 [("ok", 1)] 1) = .ok 1 :=
  ⟨rfl, rfl⟩

/-- C7 (amended): converting an Enum8 or Enum16 tagged value succeeds
exactly on tag match and yields only the raw integer member, the same
for every symbol table (the table is discarded); a mismatched tag
fails with a type-mismatch error. -/
theorem C7_enum_raw_member (tbl : List (Str × Int)) (x : Int)
    (value : ValueRef) :
    from_sql_enum8 (ValueRef.Enum8 tbl x) = .ok x ∧
    from_sql_enum16 (ValueRef.Enum16 tbl x) = .ok x ∧
    ((∀ t m, value ≠ .Enum8 t m) →
      from_sql_enum8 value = .error (invalid_type value "Enum8")) ∧
    ((∀ t m, value ≠ .Enum16 t m) →
      from_sql_enum16 value = .error (invalid_type value "Enum16")) := by
  refine ⟨rfl, rfl, ?_, ?_⟩
  · intro h
    cases value <;> simp [from_sql_enum8]
    exact absurd rfl (h _ _)
  · intro h
    cases value <;> simp [from_sql_enum16]
    exact absurd rfl (h _ _)

/-- Witness for C7 (amended): a concrete Enum8 value converts to its
raw member, and an 8-bit unsigned value fails against destination
Enum8. -/
theorem C7_enum_raw_member_witness :
    from_sql_enum8 (ValueRef.Enum8 [("a", 1)] 1) = .ok 1 ∧
    from_sql_enum8 (ValueRef.UInt8 1) =
      .error (invalid_type (ValueRef.UInt8 1) "Enum8") :=
  ⟨(C7_enum_raw_member [("a", 1)] 1 (ValueRef.UInt8 1)).1,
    (C7_enum_raw_member [("a", 1)] 1 (ValueRef.UInt8 1)).2.2.1
      (fun _ _ h => nomatch h)⟩

/-! ### The composite tuple column (`src/types/column/tuple.rs`) -/

/-- Modelled from the spec: the generic columnar capability every
sub-column implements (the `ColumnData` trait object held in
`TupleColumnData::inners`; `src/types/column/column_data.rs` is not
under `src/`), restricted to the read-side operations the tuple column
composes: declared type, row count, and row access. The field
`valueAt` models the trait method `at` (`at` is a Lean keyword). -/
structure ColumnDataM where
  sql_type : SqlType
  len : Nat
  valueAt : Nat → ValueRef

/-- `TupleColumnData` (src/types/column/tuple.rs lines 12–15): the
composite tuple column owns its sub-columns `inners` plus the shared
row count `size` fixed at construction. -/
structure TupleColumnData where
  inners : List ColumnDataM
  size : Nat

/-- `TupleColumnData::sql_type` (tuple.rs lines 35–42): the tuple type
of the sub-columns' declared types, in order. -/
def TupleColumnData.sql_type (d : TupleColumnData) : SqlType :=
  SqlType.Tuple (d.inners.map ColumnDataM.sql_type)

/-- `TupleColumnData::len` (tuple.rs lines 48–50): returns `self.size`. -/
def TupleColumnData.len (d : TupleColumnData) : Nat := d.size

/-- `TupleColumnData::at` (tuple.rs lines 56–59): the tuple of each
sub-column's value at the row, in declared order (named `valueAt`
because `at` is a Lean keyword). -/
def TupleColumnData.valueAt (d : TupleColumnData) (index : Nat) : ValueRef :=
  ValueRef.Tuple (d.inners.map (fun inner => inner.valueAt index))

/-- `Value` (the owned tagged value, `src/types/value.rs`, not under
`src/`): identified with the borrowed form for this embedding — the
tuple column's `push` ignores it anyway. -/
abbrev Value := ValueRef

/-- `TupleColumnData::save` (tuple.rs lines 44–46): `unimplemented!()`,
modelled as the `unsupportedOperation` outcome. On success it would
write bytes into the encoder; no state is ever produced. -/
def TupleColumnData.save (_d : TupleColumnData) (_start _end : Nat) :
    Except Error Unit :=
  .error .unsupportedOperation

/-- `TupleColumnData::push` (tuple.rs lines 52–54): `unimplemented!()`,
modelled as the `unsupportedOperation` outcome. The `&mut self`
mutation is embedded by returning the updated column on success, so
"the column is unchanged" is the fact that no updated column is ever
produced. -/
def TupleColumnData.push (_d : TupleColumnData) (_value : Value) :
    Except Error TupleColumnData :=
  .error .unsupportedOperation

/-- C5: for every row index `i` below the row count, row access
returns a tuple value whose j-th component is sub-column j's value at
row `i`, components in declared sub-column order, and `len` returns
the shared row count fixed at construction. -/
theorem C5_tuple_column_row_access (d : TupleColumnData) (i j : Nat)
    (_hi : i < d.len) (hj : j < d.inners.length) :
    d.len = d.size ∧
    ∃ comps : List ValueRef,
      d.valueAt i = ValueRef.Tuple comps ∧
      comps.length = d.inners.length ∧
      ∀ hj2 : j < comps.length,
        comps.get ⟨j, hj2⟩ = (d.inners.get ⟨j, hj⟩).valueAt i := by
  refine ⟨rfl, d.inners.map (fun inner => inner.valueAt i), ?_, ?_, ?_⟩
  · rfl
  · simp
  · intro hj2
    simp [List.get_eq_getElem, List.getElem_map]

/-- Witness for C5 at the spec's concrete scenario 6: a column built
from sub-columns Int32 (10, 20, 30) and String (x, y, z) with row
count 3 has, at row 1, the composite (20, y) — checked here at
component j = 1. -/
theorem C5_tuple_column_row_access_witness :
    ∃ comps : List ValueRef,
      (TupleColumnData.mk
          [ColumnDataM.mk SqlType.Int32 3
              (fun i => ValueRef.Int32 (10 * (Int.ofNat i + 1))),
            ColumnDataM.mk SqlType.String 3
              (fun i => ValueRef.String [120 + i])] 3).valueAt 1 =
        ValueRef.Tuple comps ∧
      comps.length = 2 ∧
      ∀ h2 : 1 < comps.length, comps.get ⟨1, h2⟩ = ValueRef.String [121] := by
  obtain ⟨-, comps, hcomps, hlen, hget⟩ :=
    C5_tuple_column_row_access
      (TupleColumnData.mk
        [ColumnDataM.mk SqlType.Int32 3
            (fun i => ValueRef.Int32 (10 * (Int.ofNat i + 1))),
          ColumnDataM.mk SqlType.String 3
            (fun i => ValueRef.String [120 + i])] 3)
      1 1 (by decide) (by decide)
  exact ⟨comps, hcomps, hlen, fun h2 => (hget h2).trans rfl⟩

/-- C8: for every composite tuple column and every input, `push`
(Append) and `save` (SerializeRange) produce the fatal
`unsupportedOperation` outcome — an error kind distinct from every
type-mismatch error — and never produce a result, so the column is
left unchanged. -/
theorem C8_tuple_column_unsupported (d : TupleColumnData) (v : Value)
    (s e : Nat) :
    d.push v = .error .unsupportedOperation ∧
    d.save s e = .error .unsupportedOperation ∧
    (∀ err, Error.unsupportedOperation ≠ Error.fromSql err) ∧
    (∀ d2, d.push v ≠ .ok d2) ∧
    (∀ u, d.save s e ≠ .ok u) := by
  refine ⟨rfl, rfl, ?_, ?_, ?_⟩
  · intro err h
    exact nomatch h
  · intro d2 h
    simp [TupleColumnData.push] at h
  · intro u h
    simp [TupleColumnData.save] at h

/-- Witness for C8: a concrete empty tuple column rejects both
operations with the `unsupportedOperation` outcome. -/
theorem C8_tuple_column_unsupported_witness :
    (TupleColumnData.mk [] 0).push (ValueRef.UInt8 1) =
      .error .unsupportedOperation ∧
    (TupleColumnData.mk [] 0).save 0 0 = .error .unsupportedOperation :=
  ⟨(C8_tuple_column_unsupported (TupleColumnData.mk [] 0) (ValueRef.UInt8 1)
      0 0).1,
    (C8_tuple_column_unsupported (TupleColumnData.mk [] 0) (ValueRef.UInt8 1)
      0 0).2.1⟩

/-! ### Homogeneous array conversions -/

/-- The element loop shared by every sequence conversion of
`src/types/from_sql.rs`
(`for v in vs.iter() { result.push(f(v.clone())?); }`): convert each
element in order, aborting at the first failure with that failure's
error. The element source type is generic so that the same loop also
embeds the per-position loop of the tuple conversions. -/
def map_from_sql {γ α : Type} (f : γ → FromSqlResult α) :
    List γ → FromSqlResult (List α)
  | [] => .ok []
  | v :: vs =>
    match f v with
    | .error e => .error e
    | .ok x =>
      match map_from_sql f vs with
      | .error e => .error e
      | .ok xs => .ok (x :: xs)

theorem map_from_sql_isOk_iff {γ α : Type} (f : γ → FromSqlResult α)
    (vs : List γ) :
    (∃ xs, map_from_sql f vs = .ok xs) ↔ ∀ v ∈ vs, ∃ x, f v = .ok x := by
  induction vs with
  | nil => simp [map_from_sql]
  | cons v vs ih =>
    cases hfv : f v with
    | error e =>
      simp only [map_from_sql, hfv, List.mem_cons, forall_eq_or_imp]
      constructor
      · rintro ⟨xs, hxs⟩
        exact nomatch hxs
      · rintro ⟨⟨x, hx⟩, -⟩
        exact nomatch hx
    | ok x =>
      cases hm : map_from_sql f vs with
      | error e =>
        rw [hm] at ih
        simp only [map_from_sql, hfv, hm, List.mem_cons, forall_eq_or_imp]
        constructor
        · rintro ⟨xs, hxs⟩
          exact nomatch hxs
        · rintro ⟨-, hall⟩
          obtain ⟨xs, hxs⟩ := ih.mpr hall
          exact nomatch hxs
      | ok xs =>
        rw [hm] at ih
        simp only [map_from_sql, hfv, hm, List.mem_cons, forall_eq_or_imp]
        refine ⟨fun _ => ⟨⟨x, rfl⟩, ih.mp ⟨xs, rfl⟩⟩, fun _ => ⟨x :: xs, rfl⟩⟩

theorem map_from_sql_ok_spec {γ α : Type} (f : γ → FromSqlResult α)
    (vs : List γ) (xs : List α) (hxs : map_from_sql f vs = .ok xs) :
    xs.length = vs.length ∧
    ∀ (i : Nat) (h1 : i < vs.length) (h2 : i < xs.length),
      f (vs.get ⟨i, h1⟩) = .ok (xs.get ⟨i, h2⟩) := by
  induction vs generalizing xs with
  | nil =>
    simp only [map_from_sql] at hxs
    cases hxs
    exact ⟨rfl, fun i h1 h2 => absurd h1 (by simp)⟩
  | cons v vs ih =>
    cases hfv : f v with
    | error e =>
      rw [map_from_sql, hfv] at hxs
      exact nomatch hxs
    | ok x =>
      cases hm : map_from_sql f vs with
      | error e =>
        rw [map_from_sql, hfv, hm] at hxs
        exact nomatch hxs
      | ok ys =>
        rw [map_from_sql, hfv, hm] at hxs
        cases hxs
        obtain ⟨hlen, helem⟩ := ih ys hm
        refine ⟨by simp [hlen], ?_⟩
        intro i h1 h2
        cases i with
        | zero => simpa using hfv
        | succ i =>
          have h1v : i < vs.length := by simpa using h1
          have h2y : i < ys.length := by simpa using h2
          simpa using helem i h1v h2y

theorem map_from_sql_first_error {γ α : Type} (f : γ → FromSqlResult α)
    (vs : List γ) (i : Nat) (h1 : i < vs.length) (e : Error)
    (hpre : ∀ (j : Nat) (hj : j < vs.length), j < i →
      ∃ x, f (vs.get ⟨j, hj⟩) = .ok x)
    (hi : f (vs.get ⟨i, h1⟩) = .error e) :
    map_from_sql f vs = .error e := by
  induction vs generalizing i with
  | nil => exact absurd h1 (by simp)
  | cons v vs ih =>
    cases i with
    | zero =>
      have hv : f v = .error e := by simpa using hi
      rw [map_from_sql, hv]
    | succ i =>
      obtain ⟨x, hx⟩ := hpre 0 (by simp) (Nat.succ_pos i)
      have hv : f v = .ok x := by simpa using hx
      have h1v : i < vs.length := by simpa using h1
      have htail : map_from_sql f vs = .error e := by
        refine ih i h1v ?_ (by simpa using hi)
        intro j hj hji
        have := hpre (j + 1) (by simpa using Nat.succ_lt_succ hj)
          (Nat.succ_lt_succ hji)
        simpa using this
      rw [map_from_sql, hv, htail]

/-- `from_sql_vec_impl!` with fallible element conversions
(src/types/from_sql.rs lines 145–179), parameterised by the declared
element tag pattern `tagOk` (the macro's `$k:pat`), the element
conversion `f` (the macro's `$f`), and the destination name `dst` (the
macro's `Vec<$t>`): an array whose declared element tag matches
converts element-wise, fail-fast; anything else — including an array
with a mismatched element tag, which falls through to the wildcard arm
of the source match — fails with a type mismatch on the whole value. -/
def from_sql_vec {α : Type} (tagOk : SqlType → Bool)
    (f : ValueRef → FromSqlResult α) (dst : Str) :
    ValueRef → FromSqlResult (List α)
  | .Array t vs =>
    if tagOk t then map_from_sql f vs
    else .error (invalid_type (.Array t vs) dst)
  | value => .error (invalid_type value dst)

/-- Modelled from the spec: `ValueRef::as_string`
(`src/types/value_ref.rs`, not under `src/`): an owned copy of the
byte payload of a text value; any other tag is a type mismatch. Used
by the `Vec<String>` instantiation of the macro. -/
def ValueRef.as_string : ValueRef → FromSqlResult (List Nat)
  | .String bytes => .ok bytes
  | value => .error (invalid_type value "String")

/-- The declared-element-tag pattern `SqlType::String` of the
`Vec<String>` instantiation (from_sql.rs line 176). -/
def SqlType.isStringTag : SqlType → Bool
  | .String => true
  | _ => false

/-- The instantiation
`from_sql_vec_impl! { String: SqlType::String => |v| v.as_string() }`
(from_sql.rs line 176). -/
def from_sql_vec_string : ValueRef → FromSqlResult (List (List Nat)) :=
  from_sql_vec SqlType.isStringTag ValueRef.as_string "Vec<String>"

/-- C2: for a homogeneous array value with declared element tag `t`
and a sequence destination with expected tag `tagOk` and element
conversion `f`: a tag mismatch fails with a type mismatch on the whole
value; on a tag match the conversion succeeds iff every element
converts, on success the result has the input's length with elements
converted in order, and on an element failure the returned error is
the error of the first (lowest-index) failing element — no partial
sequence is returned. -/
theorem C2_array_elementwise {α : Type} (tagOk : SqlType → Bool)
    (f : ValueRef → FromSqlResult α) (dst : Str) (t : SqlType)
    (vs : List ValueRef) :
    (tagOk t = false →
      from_sql_vec tagOk f dst (ValueRef.Array t vs) =
        .error (invalid_type (ValueRef.Array t vs) dst)) ∧
    (tagOk t = true →
      ((∃ xs, from_sql_vec tagOk f dst (ValueRef.Array t vs) = .ok xs) ↔
        ∀ v ∈ vs, ∃ x, f v = .ok x) ∧
      (∀ xs, from_sql_vec tagOk f dst (ValueRef.Array t vs) = .ok xs →
        xs.length = vs.length ∧
        ∀ (i : Nat) (h1 : i < vs.length) (h2 : i < xs.length),
          f (vs.get ⟨i, h1⟩) = .ok (xs.get ⟨i, h2⟩)) ∧
      (∀ (i : Nat) (h1 : i < vs.length) (e : Error),
        (∀ (j : Nat) (hj : j < vs.length), j < i →
          ∃ x, f (vs.get ⟨j, hj⟩) = .ok x) →
        f (vs.get ⟨i, h1⟩) = .error e →
        from_sql_vec tagOk f dst (ValueRef.Array t vs) = .error e)) := by
  constructor
  · intro ht
    simp [from_sql_vec, ht]
  · intro ht
    have hred : from_sql_vec tagOk f dst (ValueRef.Array t vs) =
        map_from_sql f vs := by
      simp [from_sql_vec, ht]
    rw [hred]
    exact ⟨map_from_sql_isOk_iff f vs,
      fun xs hxs => map_from_sql_ok_spec f vs xs hxs,
      fun i h1 e => map_from_sql_first_error f vs i h1 e⟩

/-- Witness for C2 at the spec's concrete scenario 4, through the
repository's `Vec<String>` instantiation: the text array (a, b, c)
converts (to some sequence), and the same array with a non-text
element at index 1 fails with exactly that element's type-mismatch
error. -/
theorem C2_array_elementwise_witness :
    (∃ xs, from_sql_vec SqlType.isStringTag ValueRef.as_string "Vec<String>"
      (ValueRef.Array SqlType.String
        [ValueRef.String [97], ValueRef.String [98], ValueRef.String [99]]) =
        .ok xs) ∧
    from_sql_vec SqlType.isStringTag ValueRef.as_string "Vec<String>"
      (ValueRef.Array SqlType.String
        [ValueRef.String [97], ValueRef.UInt8 1, ValueRef.String [99]]) =
      .error (invalid_type (ValueRef.UInt8 1) "String") := by
  constructor
  · refine ((C2_array_elementwise SqlType.isStringTag ValueRef.as_string
      "Vec<String>" SqlType.String
      [ValueRef.String [97], ValueRef.String [98], ValueRef.String [99]]).2
      rfl).1.mpr ?_
    intro v hv
    simp only [List.mem_cons, List.not_mem_nil, or_false] at hv
    rcases hv with rfl | rfl | rfl
    · exact ⟨[97], rfl⟩
    · exact ⟨[98], rfl⟩
    · exact ⟨[99], rfl⟩
  · refine ((C2_array_elementwise SqlType.isStringTag ValueRef.as_string
      "Vec<String>" SqlType.String
      [ValueRef.String [97], ValueRef.UInt8 1, ValueRef.String [99]]).2
      rfl).2.2 1 (by simp) (invalid_type (ValueRef.UInt8 1) "String") ?_ rfl
    intro j hj hj1
    have hj0 : j = 0 := Nat.lt_one_iff.mp hj1
    subst hj0
    exact ⟨[97], rfl⟩

/-- Modelled from the spec: `impl From<ValueRef> for u8`
(`src/types/value_ref.rs`, not under `src/`) — the infallible element
conversion `v.clone().into()` used by `Vec<u8>`; on any variant other
than an 8-bit unsigned value the source panics, so theorems apply it
only under the array self-consistency invariant of §3 and the
placeholder result 0 of the panic case is never exercised. -/
def u8_into : ValueRef → Nat
  | .UInt8 v => v
  | _ => 0

/-- Modelled from the spec: `ValueRef::as_bytes`
(`src/types/value_ref.rs`, not under `src/`): the byte view of a text
or raw-bytes value (one variant in this representation); any other tag
is a type mismatch. -/
def ValueRef.as_bytes : ValueRef → FromSqlResult (List Nat)
  | .String bytes => .ok bytes
  | value => .error (invalid_type value "&[u8]")

/-- `impl FromSql for Vec<u8>` (src/types/from_sql.rs lines 181–194):
an array declared `UInt8` converts element-wise via the infallible
`into`; any other value falls back to `as_bytes`, copied to an owned
vector. -/
def from_sql_vec_u8 : ValueRef → FromSqlResult (List Nat)
  | .Array .UInt8 vs => .ok (vs.map u8_into)
  | value => value.as_bytes

/-- True exactly on the two source shapes accepted by `Vec<u8>`: an
array with declared element tag UInt8, or a value exposing a byte
view. -/
def vec_u8_shape : ValueRef → Bool
  | .Array .UInt8 _ => true
  | .String _ => true
  | _ => false

theorem from_sql_vec_u8_not_shape (value : ValueRef)
    (hshape : vec_u8_shape value = false) :
    from_sql_vec_u8 value = .error (invalid_type value "&[u8]") := by
  cases value with
  | Array t vs2 =>
    cases t <;>
      simp_all [vec_u8_shape, from_sql_vec_u8, ValueRef.as_bytes]
  | String bs => simp [vec_u8_shape] at hshape
  | _ => rfl

/-- C9: conversion to Vec<u8> accepts exactly two source shapes: a
homogeneous array with declared element tag UInt8 converts
element-wise (under the §3 array self-consistency invariant, the i-th
result is the i-th element's carried byte), and a value exposing a
byte view converts to an owned copy of its bytes; every value in
neither shape fails with a type mismatch. -/
theorem C9_vec_u8_two_shapes (vs : List ValueRef) (bs : List Nat)
    (value : ValueRef)
    (hcons : ∀ v ∈ vs, ∃ n, v = ValueRef.UInt8 n)
    (hshape : vec_u8_shape value = false) :
    from_sql_vec_u8 (ValueRef.Array SqlType.UInt8 vs) = .ok (vs.map u8_into) ∧
    (∀ (i : Nat) (h1 : i < vs.length) (h2 : i < (vs.map u8_into).length),
      vs.get ⟨i, h1⟩ = ValueRef.UInt8 ((vs.map u8_into).get ⟨i, h2⟩)) ∧
    from_sql_vec_u8 (ValueRef.String bs) = .ok bs ∧
    from_sql_vec_u8 value = .error (invalid_type value "&[u8]") := by
  refine ⟨rfl, ?_, rfl, from_sql_vec_u8_not_shape value hshape⟩
  intro i h1 h2
  obtain ⟨n, hn⟩ := hcons (vs.get ⟨i, h1⟩) (vs.get_mem i h1)
  have hmap : (vs.map u8_into).get ⟨i, h2⟩ = u8_into (vs.get ⟨i, h1⟩) := by
    simp [List.get_eq_getElem, List.getElem_map]
  rw [hmap, hn]
  simp [u8_into]

/-- Witness for C9: the UInt8 array (1, 2) converts element-wise to
the byte sequence (1, 2); the text value a converts to its byte copy;
the empty tuple value — neither shape — fails. -/
theorem C9_vec_u8_two_shapes_witness :
    from_sql_vec_u8
      (ValueRef.Array SqlType.UInt8 [ValueRef.UInt8 1, ValueRef.UInt8 2]) =
      .ok [1, 2] ∧
    from_sql_vec_u8 (ValueRef.String [97]) = .ok [97] ∧
    from_sql_vec_u8 (ValueRef.Tuple []) =
      .error (invalid_type (ValueRef.Tuple []) "&[u8]") := by
  have h := C9_vec_u8_two_shapes [ValueRef.UInt8 1, ValueRef.UInt8 2] [97]
    (ValueRef.Tuple [])
    (by
      intro v hv
      simp only [List.mem_cons, List.not_mem_nil, or_false] at hv
      rcases hv with rfl | rfl
      · exact ⟨1, rfl⟩
      · exact ⟨2, rfl⟩)
    rfl
  exact ⟨h.1, h.2.2.1, h.2.2.2⟩

/-! ### Tuple conversions -/

/-- `from_sql_tuple_impl!` (src/types/from_sql.rs lines 330–358),
instantiated at lines 391–402 for destination arities 1 to 12. For
arity k the generated conversion accepts exactly a tuple value whose
length equals k (the macro's `TLEN`), converts position i with the
i-th destination type's `from_sql` in positional order, aborting at
the first positional failure; any other value — including a tuple of
any other length, which falls through to the wildcard arm — fails with
a type mismatch whose `dst` is `type_of::<(T1, .., Tk)>()`, the
rendered destination product type (here the parameter `dst`). The
macro's heterogeneous family of per-position converters T1..Tk is
embedded as the list `fs`; its length is the arity. -/
def from_sql_tuple {α : Type} (fs : List (ValueRef → FromSqlResult α))
    (dst : Str) : ValueRef → FromSqlResult (List α)
  | .Tuple vs =>
    if vs.length = fs.length then
      map_from_sql (fun p => p.1 p.2) (fs.zip vs)
    else .error (invalid_type (.Tuple vs) dst)
  | value => .error (invalid_type value dst)

/-- C3: for a tuple value against a destination product type of arity
k (1 ≤ k ≤ 12, the instantiated range), a length mismatch always
fails with a type mismatch naming the destination product type; when
the length matches, conversion succeeds iff every position converts to
its corresponding type, the result preserves positional order, and any
positional failure aborts with the first failing position's error. -/
theorem C3_tuple_positional {α : Type}
    (fs : List (ValueRef → FromSqlResult α)) (dst : Str)
    (vs : List ValueRef)
    (_harity1 : 1 ≤ fs.length) (_harity12 : fs.length ≤ 12) :
    (vs.length ≠ fs.length →
      from_sql_tuple fs dst (ValueRef.Tuple vs) =
        .error (invalid_type (ValueRef.Tuple vs) dst)) ∧
    (vs.length = fs.length →
      ((∃ xs, from_sql_tuple fs dst (ValueRef.Tuple vs) = .ok xs) ↔
        ∀ (i : Nat) (hf : i < fs.length) (hv : i < vs.length),
          ∃ x, (fs.get ⟨i, hf⟩) (vs.get ⟨i, hv⟩) = .ok x) ∧
      (∀ xs, from_sql_tuple fs dst (ValueRef.Tuple vs) = .ok xs →
        xs.length = fs.length ∧
        ∀ (i : Nat) (hf : i < fs.length) (hv : i < vs.length)
          (hx : i < xs.length),
          (fs.get ⟨i, hf⟩) (vs.get ⟨i, hv⟩) = .ok (xs.get ⟨i, hx⟩)) ∧
      (∀ (i : Nat) (hf : i < fs.length) (hv : i < vs.length) (e : Error),
        (∀ (j : Nat) (hjf : j < fs.length) (hjv : j < vs.length), j < i →
          ∃ x, (fs.get ⟨j, hjf⟩) (vs.get ⟨j, hjv⟩) = .ok x) →
        (fs.get ⟨i, hf⟩) (vs.get ⟨i, hv⟩) = .error e →
        from_sql_tuple fs dst (ValueRef.Tuple vs) = .error e)) := by
  constructor
  · intro hne
    simp [from_sql_tuple, hne]
  · intro heq
    have hred : from_sql_tuple fs dst (ValueRef.Tuple vs) =
        map_from_sql (fun p => p.1 p.2) (fs.zip vs) := by
      simp [from_sql_tuple, heq]
    have hzlen : (fs.zip vs).length = fs.length := by
      simp [List.length_zip, heq]
    have hzget : ∀ (i : Nat) (hz : i < (fs.zip vs).length)
        (hf : i < fs.length) (hv : i < vs.length),
        (fs.zip vs).get ⟨i, hz⟩ = (fs.get ⟨i, hf⟩, vs.get ⟨i, hv⟩) := by
      intro i hz hf hv
      simp [List.get_eq_getElem, List.getElem_zip]
    rw [hred]
    refine ⟨?_, ?_, ?_⟩
    · rw [map_from_sql_isOk_iff]
      constructor
      · intro hall i hf hv
        have hz : i < (fs.zip vs).length := by rw [hzlen]; exact hf
        have := hall ((fs.zip vs).get ⟨i, hz⟩) ((fs.zip vs).get_mem i hz)
        rwa [hzget i hz hf hv] at this
      · intro hall p hp
        obtain ⟨⟨i, hz⟩, hip⟩ := List.mem_iff_get.mp hp
        have hf : i < fs.length := by rw [← hzlen]; exact hz
        have hv : i < vs.length := by rw [heq, ← hzlen]; exact hz
        rw [← hip, hzget i hz hf hv]
        exact hall i hf hv
    · intro xs hxs
      obtain ⟨hlen, helem⟩ :=
        map_from_sql_ok_spec (fun p => p.1 p.2) (fs.zip vs) xs hxs
      refine ⟨by rw [hlen, hzlen], ?_⟩
      intro i hf hv hx
      have hz : i < (fs.zip vs).length := by rw [hzlen]; exact hf
      have := helem i hz hx
      rwa [hzget i hz hf hv] at this
    · intro i hf hv e hpre hi
      have hz : i < (fs.zip vs).length := by rw [hzlen]; exact hf
      refine map_from_sql_first_error (fun p => p.1 p.2) (fs.zip vs) i hz e ?_ ?_
      · intro j hjz hji
        have hjf : j < fs.length := by rw [← hzlen]; exact hjz
        have hjv : j < vs.length := by rw [heq, ← hzlen]; exact hjz
        rw [hzget j hjz hjf hjv]
        exact hpre j hjf hjv hji
      · rw [hzget i hz hf hv]
        exact hi

/-- Witness for C3 at the spec's concrete scenario 5 (adapted to the
uniform result type of the embedding): the 2-ary destination (u8, u8)
accepts the tuple (5, 7), and the tuple (5, 7, 9) of length 3 against
that 2-ary destination fails with a type mismatch naming the 2-ary
product type. -/
theorem C3_tuple_positional_witness :
    (∃ xs, from_sql_tuple [from_sql_u8, from_sql_u8] "(u8, u8)"
      (ValueRef.Tuple [ValueRef.UInt8 5, ValueRef.UInt8 7]) = .ok xs) ∧
    from_sql_tuple [from_sql_u8, from_sql_u8] "(u8, u8)"
      (ValueRef.Tuple [ValueRef.UInt8 5, ValueRef.UInt8 7, ValueRef.UInt8 9]) =
      .error (invalid_type
        (ValueRef.Tuple [ValueRef.UInt8 5, ValueRef.UInt8 7, ValueRef.UInt8 9])
        "(u8, u8)") := by
  constructor
  · refine ((C3_tuple_positional [from_sql_u8, from_sql_u8] "(u8, u8)"
      [ValueRef.UInt8 5, ValueRef.UInt8 7] (by simp) (by simp)).2 rfl).1.mpr ?_
    intro i hf hv
    match i, hf with
    | 0, _ => exact ⟨5, rfl⟩
    | 1, _ => exact ⟨7, rfl⟩
  · exact (C3_tuple_positional [from_sql_u8, from_sql_u8] "(u8, u8)"
      [ValueRef.UInt8 5, ValueRef.UInt8 7, ValueRef.UInt8 9]
      (by simp) (by simp)).1 (by simp)

end ClickhouseRs
